import Mathlib

/-!
Verification of the `gpio` module of the atsam4s16b embedded HAL.

The module (src/gpio.rs) implements a typestate GPIO API: a `pio!` macro
expands, for each of the three ports PIOA/PIOB/PIOC, into a `Parts`
aggregate of register tokens and 32 pin types `$PXi<MODE>`, with mode
transitions `into_peripheralA/B/C/D`, `into_output`, `downgrade`, and the
`OutputPin` operations `set_high`/`set_low`.

The embedding below models, per port:
  * the 32-bit register state touched by the module (`PioState`),
  * every register access an operation performs, as an explicit trace,
  * the typestate itself (`Mode`) and the method set available on a handle
    of each mode, read directly off the `impl` blocks.
Machine integers are `Nat` with explicit `% 2 ^ 32` truncation and 32-bit
complement where the Rust code uses `u32` arithmetic.
-/

namespace Atsam4s

/-- Input sub-mode markers: `Floating`, `PullUp`, `PullDown` (src/gpio.rs 16-21). -/
inductive InputKind where
  | floating
  | pullUp
  | pullDown
deriving DecidableEq, Repr

/-- Peripheral function markers `PeripheralA`..`PeripheralD` (src/gpio.rs 27-34). -/
inductive Periph where
  | A
  | B
  | C
  | D
deriving DecidableEq, Repr

/-- Mode marker of a pin handle: the `MODE` type parameter of `$PXi<MODE>`.
`Output<MODE>` is generic over a nested sub-mode; we model the phantom
sub-mode parameter as an opaque `Nat` tag (`0` stands for `()`). -/
inductive Mode where
  | input (k : InputKind)
  | output (sub : Nat)
  | peripheral (p : Periph)
deriving DecidableEq, Repr

/-- Whether a mode marker is an `Input<_>` instantiation. -/
def Mode.isInput : Mode → Bool
  | .input _ => true
  | _ => false

/-- Whether a mode marker is an `Output<_>` instantiation. -/
def Mode.isOutput : Mode → Bool
  | .output _ => true
  | _ => false

/-- The registers of one PIO port that the module accesses. -/
inductive Reg where
  | PER
  | PDR
  | OER
  | ODR
  | SODR
  | CODR
  | ABCDSR1
  | ABCDSR2
deriving DecidableEq, Repr

/-- One hardware register access performed by an operation. -/
inductive Access where
  | read (r : Reg)
  | write (r : Reg) (v : Nat)
deriving DecidableEq, Repr

/-- The register an access touches. -/
def Access.reg : Access → Reg
  | .read r => r
  | .write r _ => r

/-- Whether an access is a read. -/
def Access.isRead : Access → Bool
  | .read _ => true
  | .write _ _ => false

/-- Whether an access is a write to register `r`. -/
def Access.isWriteTo (r : Reg) : Access → Bool
  | .write r' _ => decide (r' = r)
  | .read _ => false

/-- Whether an access touches register `r` at all (read or write). -/
def Access.touches (r : Reg) (a : Access) : Bool :=
  decide (a.reg = r)

/-- All-ones 32-bit mask, the value of `!0u32`. -/
def mask32 : Nat := 2 ^ 32 - 1

/-- Rust `!v` on `u32`: bitwise complement within 32 bits. -/
def compl32 (v : Nat) : Nat := mask32 ^^^ v

/-- Architectural state of one PIO port, restricted to what the module
touches: the two peripheral-select registers hold plain 32-bit values;
`pioStatus` is the PIO-enable status (PSR) driven by the write-one-to-set
PER / write-one-to-clear PDR pair; `outputStatus` (OSR) is driven by
OER/ODR; `outputData` (ODSR) is driven by SODR/CODR. -/
structure PioState where
  abcdsr1 : Nat
  abcdsr2 : Nat
  pioStatus : Nat
  outputStatus : Nat
  outputData : Nat
deriving DecidableEq, Repr

/-- Modelled from the spec: the hardware register-map contract of the
external peripheral crate (spec section 6), which is not part of src/.
A write of `v` to a plain register (ABCDSR1/ABCDSR2) stores `v`; a write
to PER/OER/SODR sets exactly the written bit lanes of the backing status;
a write to PDR/ODR/CODR clears exactly the written bit lanes. Values are
truncated to 32 bits as `u32` stores are. -/
def applyWrite (s : PioState) (r : Reg) (v : Nat) : PioState :=
  let w := v % 2 ^ 32
  match r with
  | .PER => { s with pioStatus := s.pioStatus ||| w }
  | .PDR => { s with pioStatus := s.pioStatus &&& compl32 w }
  | .OER => { s with outputStatus := s.outputStatus ||| w }
  | .ODR => { s with outputStatus := s.outputStatus &&& compl32 w }
  | .SODR => { s with outputData := s.outputData ||| w }
  | .CODR => { s with outputData := s.outputData &&& compl32 w }
  | .ABCDSR1 => { s with abcdsr1 := w }
  | .ABCDSR2 => { s with abcdsr2 := w }

/-- Result of one pin mode transition: the port state afterwards, the list
of register accesses performed (in order), and the mode marker of the
returned handle. -/
structure OpResult where
  state : PioState
  trace : List Access
  mode : Mode
deriving Repr

/-- Embedding of `$PXi::<MODE>::into_peripheralA` (src/gpio.rs 174-192):
writes `1 << i` to PDR, then read-modify-writes ABCDSR1 and ABCDSR2 with
`(r.bits() & !(1 << i)) & !(1 << i)` each, returning a `PeripheralA` handle. -/
def into_peripheralA (i : Nat) (s : PioState) : OpResult :=
  let s1 := applyWrite s .PDR (1 <<< i)
  let r1 := s1.abcdsr1
  let v1 := (r1 &&& compl32 (1 <<< i)) &&& compl32 (1 <<< i)
  let s2 := applyWrite s1 .ABCDSR1 v1
  let r2 := s2.abcdsr2
  let v2 := (r2 &&& compl32 (1 <<< i)) &&& compl32 (1 <<< i)
  let s3 := applyWrite s2 .ABCDSR2 v2
  { state := s3
    trace := [.write .PDR (1 <<< i), .read .ABCDSR1, .write .ABCDSR1 v1,
              .read .ABCDSR2, .write .ABCDSR2 v2]
    mode := .peripheral .A }

/-- Embedding of `into_peripheralB` (src/gpio.rs 194-212): writes `1 << i`
to PDR, then ABCDSR1 gets `(r & !(1 << i)) & !(1 << i)` and ABCDSR2 gets
`(r & !(1 << i)) | (1 << i)`. -/
def into_peripheralB (i : Nat) (s : PioState) : OpResult :=
  let s1 := applyWrite s .PDR (1 <<< i)
  let r1 := s1.abcdsr1
  let v1 := (r1 &&& compl32 (1 <<< i)) &&& compl32 (1 <<< i)
  let s2 := applyWrite s1 .ABCDSR1 v1
  let r2 := s2.abcdsr2
  let v2 := (r2 &&& compl32 (1 <<< i)) ||| (1 <<< i)
  let s3 := applyWrite s2 .ABCDSR2 v2
  { state := s3
    trace := [.write .PDR (1 <<< i), .read .ABCDSR1, .write .ABCDSR1 v1,
              .read .ABCDSR2, .write .ABCDSR2 v2]
    mode := .peripheral .B }

/-- Embedding of `into_peripheralC` (src/gpio.rs 214-232): writes `1 << i`
to PDR, then ABCDSR1 gets `(r & !(1 << i)) | (1 << i)` and ABCDSR2 gets
`(r & !(1 << i)) & !(1 << i)`. -/
def into_peripheralC (i : Nat) (s : PioState) : OpResult :=
  let s1 := applyWrite s .PDR (1 <<< i)
  let r1 := s1.abcdsr1
  let v1 := (r1 &&& compl32 (1 <<< i)) ||| (1 <<< i)
  let s2 := applyWrite s1 .ABCDSR1 v1
  let r2 := s2.abcdsr2
  let v2 := (r2 &&& compl32 (1 <<< i)) &&& compl32 (1 <<< i)
  let s3 := applyWrite s2 .ABCDSR2 v2
  { state := s3
    trace := [.write .PDR (1 <<< i), .read .ABCDSR1, .write .ABCDSR1 v1,
              .read .ABCDSR2, .write .ABCDSR2 v2]
    mode := .peripheral .C }

/-- Embedding of `into_peripheralD` (src/gpio.rs 234-252): writes `1 << i`
to PDR, then both select registers get `(r & !(1 << i)) | (1 << i)`. -/
def into_peripheralD (i : Nat) (s : PioState) : OpResult :=
  let s1 := applyWrite s .PDR (1 <<< i)
  let r1 := s1.abcdsr1
  let v1 := (r1 &&& compl32 (1 <<< i)) ||| (1 <<< i)
  let s2 := applyWrite s1 .ABCDSR1 v1
  let r2 := s2.abcdsr2
  let v2 := (r2 &&& compl32 (1 <<< i)) ||| (1 <<< i)
  let s3 := applyWrite s2 .ABCDSR2 v2
  { state := s3
    trace := [.write .PDR (1 <<< i), .read .ABCDSR1, .write .ABCDSR1 v1,
              .read .ABCDSR2, .write .ABCDSR2 v2]
    mode := .peripheral .D }

/-- Dispatcher over the four peripheral-select transitions. -/
def runPeripheralSelect : Periph → Nat → PioState → OpResult
  | .A => into_peripheralA
  | .B => into_peripheralB
  | .C => into_peripheralC
  | .D => into_peripheralD

/-- Embedding of `into_output` (src/gpio.rs 254-262): one unconditional
write of `1 << i` to OER; returns an `Output<()>` handle. -/
def into_output (i : Nat) (s : PioState) : OpResult :=
  { state := applyWrite s .OER (1 <<< i)
    trace := [.write .OER (1 <<< i)]
    mode := .output 0 }

/-- Embedding of `$PXi::<Output<MODE>>::set_high` (src/gpio.rs 275-278):
one write of `1 << i` to SODR, no read, no register token. -/
def PXi.set_high (i : Nat) (s : PioState) : PioState × List Access :=
  (applyWrite s .SODR (1 <<< i), [.write .SODR (1 <<< i)])

/-- Embedding of `$PXi::<Output<MODE>>::set_low` (src/gpio.rs 280-283):
one write of `1 << i` to CODR, no read, no register token. -/
def PXi.set_low (i : Nat) (s : PioState) : PioState × List Access :=
  (applyWrite s .CODR (1 <<< i), [.write .CODR (1 <<< i)])

/-- Embedding of the erased pin struct `$PXx<MODE>` (src/gpio.rs 150-153):
runtime index plus the phantom mode marker, tracked here as a field. -/
structure PXx where
  i : Nat
  mode : Mode
deriving DecidableEq, Repr

/-- Embedding of `downgrade` (src/gpio.rs 265-272): from an indexed
`$PXi<Output<sub>>` handle, builds `$PXx { i: $i, _mode: self._mode }`. -/
def downgrade (i : Nat) (sub : Nat) : PXx :=
  { i := i, mode := .output sub }

/-- Embedding of `$PXx::<Output<MODE>>::set_high` (src/gpio.rs 156-159):
one write of `1 << self.i` to SODR. -/
def PXx.set_high (p : PXx) (s : PioState) : PioState × List Access :=
  (applyWrite s .SODR (1 <<< p.i), [.write .SODR (1 <<< p.i)])

/-- Embedding of `$PXx::<Output<MODE>>::set_low` (src/gpio.rs 161-164):
one write of `1 << self.i` to CODR. -/
def PXx.set_low (p : PXx) (s : PioState) : PioState × List Access :=
  (applyWrite s .CODR (1 <<< p.i), [.write .CODR (1 <<< p.i)])

/-- The methods a pin handle exposes (mode transitions plus the
`OutputPin` operations). -/
inductive Method where
  | intoPeripheralA
  | intoPeripheralB
  | intoPeripheralC
  | intoPeripheralD
  | intoOutput
  | downgrade
  | setHigh
  | setLow
deriving DecidableEq, Repr

/-- Which methods are callable on a `$PXi<MODE>` handle, as a function of
its mode marker, read directly off the impl blocks of src/gpio.rs:
`into_peripheralA/B/C/D` and `into_output` sit in `impl<MODE> $PXi<MODE>`
(lines 173-263), unconstrained in `MODE`, so they are available on a
handle of every mode; `downgrade` sits in `impl<MODE> $PXi<Output<MODE>>`
(lines 265-272) and `set_high`/`set_low` in
`impl<MODE> OutputPin for $PXi<Output<MODE>>` (lines 274-284), so those
three require an `Output<_>` mode marker. -/
def methodAvailable (m : Mode) : Method → Bool
  | .intoPeripheralA => true
  | .intoPeripheralB => true
  | .intoPeripheralC => true
  | .intoPeripheralD => true
  | .intoOutput => true
  | .downgrade => m.isOutput
  | .setHigh => m.isOutput
  | .setLow => m.isOutput

/-- One mode transition of a pin handle: `Step m m'` holds when some
method consumes a handle of mode `m` and returns a handle of mode `m'`.
Constructors mirror the return types of the transitions in src/gpio.rs:
the `into_peripheralX` and `into_output` methods apply to every source
mode, `downgrade` only to `Output<sub>` handles (preserving `sub`). -/
inductive Step : Mode → Mode → Prop where
  | intoPeripheralA (m : Mode) : Step m (.peripheral .A)
  | intoPeripheralB (m : Mode) : Step m (.peripheral .B)
  | intoPeripheralC (m : Mode) : Step m (.peripheral .C)
  | intoPeripheralD (m : Mode) : Step m (.peripheral .D)
  | intoOutput (m : Mode) : Step m (.output 0)
  | downgrade (sub : Nat) : Step (.output sub) (.output sub)

/-- The `(index, initial mode)` pairs of the 32 pins in the
`pio! { PIOA, ... }` invocation (src/gpio.rs 290-323): every pin starts
as `Input<Floating>`. -/
def pioaPinEntries : List (Nat × Mode) :=
  [(0, .input .floating), (1, .input .floating), (2, .input .floating),
   (3, .input .floating), (4, .input .floating), (5, .input .floating),
   (6, .input .floating), (7, .input .floating), (8, .input .floating),
   (9, .input .floating), (10, .input .floating), (11, .input .floating),
   (12, .input .floating), (13, .input .floating), (14, .input .floating),
   (15, .input .floating), (16, .input .floating), (17, .input .floating),
   (18, .input .floating), (19, .input .floating), (20, .input .floating),
   (21, .input .floating), (22, .input .floating), (23, .input .floating),
   (24, .input .floating), (25, .input .floating), (26, .input .floating),
   (27, .input .floating), (28, .input .floating), (29, .input .floating),
   (30, .input .floating), (31, .input .floating)]

/-- The `(index, initial mode)` pairs of the `pio! { PIOB, ... }`
invocation (src/gpio.rs 325-358). -/
def piobPinEntries : List (Nat × Mode) :=
  [(0, .input .floating), (1, .input .floating), (2, .input .floating),
   (3, .input .floating), (4, .input .floating), (5, .input .floating),
   (6, .input .floating), (7, .input .floating), (8, .input .floating),
   (9, .input .floating), (10, .input .floating), (11, .input .floating),
   (12, .input .floating), (13, .input .floating), (14, .input .floating),
   (15, .input .floating), (16, .input .floating), (17, .input .floating),
   (18, .input .floating), (19, .input .floating), (20, .input .floating),
   (21, .input .floating), (22, .input .floating), (23, .input .floating),
   (24, .input .floating), (25, .input .floating), (26, .input .floating),
   (27, .input .floating), (28, .input .floating), (29, .input .floating),
   (30, .input .floating), (31, .input .floating)]

/-- The `(index, initial mode)` pairs of the `pio! { PIOC, ... }`
invocation (src/gpio.rs 360-393). -/
def piocPinEntries : List (Nat × Mode) :=
  [(0, .input .floating), (1, .input .floating), (2, .input .floating),
   (3, .input .floating), (4, .input .floating), (5, .input .floating),
   (6, .input .floating), (7, .input .floating), (8, .input .floating),
   (9, .input .floating), (10, .input .floating), (11, .input .floating),
   (12, .input .floating), (13, .input .floating), (14, .input .floating),
   (15, .input .floating), (16, .input .floating), (17, .input .floating),
   (18, .input .floating), (19, .input .floating), (20, .input .floating),
   (21, .input .floating), (22, .input .floating), (23, .input .floating),
   (24, .input .floating), (25, .input .floating), (26, .input .floating),
   (27, .input .floating), (28, .input .floating), (29, .input .floating),
   (30, .input .floating), (31, .input .floating)]

/-- Embedding of the `Parts` struct (src/gpio.rs 52-70): the six opaque
register tokens (each a zero-size `{ _0: () }` struct, modelled as `Unit`)
plus the pin handles, modelled as their `(index, mode)` list. -/
structure Parts where
  abcdsr1 : Unit
  abcdsr2 : Unit
  per : Unit
  pdr : Unit
  oer : Unit
  odr : Unit
  pins : List (Nat × Mode)
deriving Repr

/-- The register-token fields of the `Parts` struct, in declaration order
(src/gpio.rs 52-64). -/
def partsRegisterTokenFields : List String :=
  ["abcdsr1", "abcdsr2", "per", "pdr", "oer", "odr"]

/-- Embedding of `GpioExt::split` (src/gpio.rs 75-87): consumes the port
peripheral and builds the `Parts` literal, token fields `()` and one pin
handle per entry of the `pio!` invocation. -/
def split (entries : List (Nat × Mode)) : Parts :=
  { abcdsr1 := (), abcdsr2 := (), per := (), pdr := (), oer := (),
    odr := (), pins := entries }

/-- Register accesses performed by `split`: its body (src/gpio.rs 75-87)
only constructs struct literals, so the trace is empty. -/
def splitTrace : List Access := []

/-- Result of `split` for the PIOA port. -/
def splitPIOA : Parts := split pioaPinEntries

/-- Result of `split` for the PIOB port. -/
def splitPIOB : Parts := split piobPinEntries

/-- Result of `split` for the PIOC port. -/
def splitPIOC : Parts := split piocPinEntries

/-! Bit-level helper lemmas. -/

lemma testBit_one_shiftLeft (i j : Nat) : (1 <<< i).testBit j = decide (i = j) := by
  rw [Nat.one_shiftLeft]
  exact Nat.testBit_two_pow

lemma testBit_mask32 (j : Nat) : mask32.testBit j = decide (j < 32) := by
  simpa [mask32] using Nat.testBit_two_pow_sub_one 32 j

lemma testBit_compl32_shift (i j : Nat) (hi : i < 32) :
    (compl32 (1 <<< i)).testBit j = (decide (j < 32) && ! decide (i = j)) := by
  unfold compl32
  rw [Nat.testBit_xor, testBit_mask32, testBit_one_shiftLeft]
  by_cases h : j < 32 <;> by_cases h2 : i = j <;> simp [h, h2]
  omega

/-- Bit `j` of the value a peripheral-select transition stores when it
clears pin `i`'s lane: `(r & !(1 << i)) & !(1 << i)`, truncated to 32 bits. -/
lemma testBit_clearVal (r i j : Nat) (hi : i < 32) (hj : j < 32) :
    (((r &&& compl32 (1 <<< i)) &&& compl32 (1 <<< i)) % 2 ^ 32).testBit j
      = (r.testBit j && ! decide (i = j)) := by
  rw [Nat.testBit_mod_two_pow, Nat.testBit_land, Nat.testBit_land,
    testBit_compl32_shift i j hi]
  by_cases h2 : i = j <;> simp [h2, hj]

/-- Bit `j` of the value a peripheral-select transition stores when it
sets pin `i`'s lane: `(r & !(1 << i)) | (1 << i)`, truncated to 32 bits. -/
lemma testBit_setVal (r i j : Nat) (hi : i < 32) (hj : j < 32) :
    (((r &&& compl32 (1 <<< i)) ||| (1 <<< i)) % 2 ^ 32).testBit j
      = ((r.testBit j && ! decide (i = j)) || decide (i = j)) := by
  rw [Nat.testBit_mod_two_pow, Nat.testBit_lor, Nat.testBit_land,
    testBit_compl32_shift i j hi, testBit_one_shiftLeft]
  by_cases h2 : i = j <;> simp [h2, hj]

/-! Characterization of the select-register contents after each transition. -/

lemma into_peripheralA_abcdsr1 (i : Nat) (s : PioState) :
    (into_peripheralA i s).state.abcdsr1
      = ((s.abcdsr1 &&& compl32 (1 <<< i)) &&& compl32 (1 <<< i)) % 2 ^ 32 := rfl

lemma into_peripheralA_abcdsr2 (i : Nat) (s : PioState) :
    (into_peripheralA i s).state.abcdsr2
      = ((s.abcdsr2 &&& compl32 (1 <<< i)) &&& compl32 (1 <<< i)) % 2 ^ 32 := rfl

lemma into_peripheralB_abcdsr1 (i : Nat) (s : PioState) :
    (into_peripheralB i s).state.abcdsr1
      = ((s.abcdsr1 &&& compl32 (1 <<< i)) &&& compl32 (1 <<< i)) % 2 ^ 32 := rfl

lemma into_peripheralB_abcdsr2 (i : Nat) (s : PioState) :
    (into_peripheralB i s).state.abcdsr2
      = ((s.abcdsr2 &&& compl32 (1 <<< i)) ||| (1 <<< i)) % 2 ^ 32 := rfl

lemma into_peripheralC_abcdsr1 (i : Nat) (s : PioState) :
    (into_peripheralC i s).state.abcdsr1
      = ((s.abcdsr1 &&& compl32 (1 <<< i)) ||| (1 <<< i)) % 2 ^ 32 := rfl

lemma into_peripheralC_abcdsr2 (i : Nat) (s : PioState) :
    (into_peripheralC i s).state.abcdsr2
      = ((s.abcdsr2 &&& compl32 (1 <<< i)) &&& compl32 (1 <<< i)) % 2 ^ 32 := rfl

lemma into_peripheralD_abcdsr1 (i : Nat) (s : PioState) :
    (into_peripheralD i s).state.abcdsr1
      = ((s.abcdsr1 &&& compl32 (1 <<< i)) ||| (1 <<< i)) % 2 ^ 32 := rfl

lemma into_peripheralD_abcdsr2 (i : Nat) (s : PioState) :
    (into_peripheralD i s).state.abcdsr2
      = ((s.abcdsr2 &&& compl32 (1 <<< i)) ||| (1 <<< i)) % 2 ^ 32 := rfl

/-- Expected ABCDSR1 (select-1) bit for peripheral `p` per the spec's code
mapping A=00, B=01, C=10, D=11: set exactly for C and D. -/
def selBit1Spec : Periph → Bool
  | .C => true
  | .D => true
  | _ => false

/-- Expected ABCDSR2 (select-2) bit for peripheral `p` per the spec's code
mapping A=00, B=01, C=10, D=11: set exactly for B and D. -/
def selBit2Spec : Periph → Bool
  | .B => true
  | .D => true
  | _ => false

/-- All-zero port state, the hardware reset value of the registers the
module touches; used as a concrete evaluation point. -/
def s0 : PioState :=
  { abcdsr1 := 0, abcdsr2 := 0, pioStatus := 0, outputStatus := 0,
    outputData := 0 }

/-! Claims. -/

/-- C1: for every port (the three ports are identical instances of this
model), every pin index `i < 32` and every peripheral function X in
{A,B,C,D}, `into_peripheralX` leaves pin `i`'s bit pair in the two
peripheral-select registers encoding X: A = clear in both, B = set only in
ABCDSR2, C = set only in ABCDSR1, D = set in both. -/
theorem claim_C1 (p : Periph) (i : Nat) (s : PioState) (hi : i < 32) :
    (runPeripheralSelect p i s).state.abcdsr1.testBit i = selBit1Spec p ∧
    (runPeripheralSelect p i s).state.abcdsr2.testBit i = selBit2Spec p ∧
    (runPeripheralSelect p i s).mode = .peripheral p := by
  cases p
  case A =>
    refine ⟨?_, ?_, rfl⟩ <;> simp only [runPeripheralSelect]
    · rw [into_peripheralA_abcdsr1, testBit_clearVal _ _ _ hi hi]
      simp [selBit1Spec]
    · rw [into_peripheralA_abcdsr2, testBit_clearVal _ _ _ hi hi]
      simp [selBit2Spec]
  case B =>
    refine ⟨?_, ?_, rfl⟩ <;> simp only [runPeripheralSelect]
    · rw [into_peripheralB_abcdsr1, testBit_clearVal _ _ _ hi hi]
      simp [selBit1Spec]
    · rw [into_peripheralB_abcdsr2, testBit_setVal _ _ _ hi hi]
      simp [selBit2Spec]
  case C =>
    refine ⟨?_, ?_, rfl⟩ <;> simp only [runPeripheralSelect]
    · rw [into_peripheralC_abcdsr1, testBit_setVal _ _ _ hi hi]
      simp [selBit1Spec]
    · rw [into_peripheralC_abcdsr2, testBit_clearVal _ _ _ hi hi]
      simp [selBit2Spec]
  case D =>
    refine ⟨?_, ?_, rfl⟩ <;> simp only [runPeripheralSelect]
    · rw [into_peripheralD_abcdsr1, testBit_setVal _ _ _ hi hi]
      simp [selBit1Spec]
    · rw [into_peripheralD_abcdsr2, testBit_setVal _ _ _ hi hi]
      simp [selBit2Spec]

/-- Witness for C1: concrete evaluation at X = C, i = 4, reset state. -/
theorem claim_C1_witness :
    (runPeripheralSelect Periph.C 4 s0).state.abcdsr1.testBit 4
        = selBit1Spec Periph.C ∧
    (runPeripheralSelect Periph.C 4 s0).state.abcdsr2.testBit 4
        = selBit2Spec Periph.C ∧
    (runPeripheralSelect Periph.C 4 s0).mode = .peripheral Periph.C :=
  claim_C1 Periph.C 4 s0 (by decide)

/-- C2: for every peripheral function X, every pin index `i < 32`, every
prior contents of the select registers and every other index `j ≠ i`
(`j < 32`), `into_peripheralX` on pin `i` leaves bit `j` of both ABCDSR1
and ABCDSR2 unchanged: the read-modify-write touches only bit `i`. -/
theorem claim_C2 (p : Periph) (i j : Nat) (s : PioState) (hi : i < 32)
    (hj : j < 32) (hne : j ≠ i) :
    (runPeripheralSelect p i s).state.abcdsr1.testBit j
        = s.abcdsr1.testBit j ∧
    (runPeripheralSelect p i s).state.abcdsr2.testBit j
        = s.abcdsr2.testBit j := by
  have hij : i ≠ j := Ne.symm hne
  cases p
  case A =>
    constructor <;> simp only [runPeripheralSelect]
    · rw [into_peripheralA_abcdsr1, testBit_clearVal _ _ _ hi hj]
      simp [hij]
    · rw [into_peripheralA_abcdsr2, testBit_clearVal _ _ _ hi hj]
      simp [hij]
  case B =>
    constructor <;> simp only [runPeripheralSelect]
    · rw [into_peripheralB_abcdsr1, testBit_clearVal _ _ _ hi hj]
      simp [hij]
    · rw [into_peripheralB_abcdsr2, testBit_setVal _ _ _ hi hj]
      simp [hij]
  case C =>
    constructor <;> simp only [runPeripheralSelect]
    · rw [into_peripheralC_abcdsr1, testBit_setVal _ _ _ hi hj]
      simp [hij]
    · rw [into_peripheralC_abcdsr2, testBit_clearVal _ _ _ hi hj]
      simp [hij]
  case D =>
    constructor <;> simp only [runPeripheralSelect]
    · rw [into_peripheralD_abcdsr1, testBit_setVal _ _ _ hi hj]
      simp [hij]
    · rw [into_peripheralD_abcdsr2, testBit_setVal _ _ _ hi hj]
      simp [hij]

/-- Witness for C2: concrete evaluation at X = D, i = 3, j = 7, with a
state whose select registers are all-ones. -/
theorem claim_C2_witness :
    (runPeripheralSelect Periph.D 3
        { abcdsr1 := mask32, abcdsr2 := mask32, pioStatus := 0,
          outputStatus := 0, outputData := 0 }).state.abcdsr1.testBit 7
      = Nat.testBit mask32 7 ∧
    (runPeripheralSelect Periph.D 3
        { abcdsr1 := mask32, abcdsr2 := mask32, pioStatus := 0,
          outputStatus := 0, outputData := 0 }).state.abcdsr2.testBit 7
      = Nat.testBit mask32 7 :=
  claim_C2 Periph.D 3 7 _ (by decide) (by decide) (by decide)

/-- C3 counterexample: the claim says that after
Input(Floating) → Peripheral(C) no further peripheral-select transition can
be invoked (compile-time rejection). On the code this is false: the
`into_peripheralA/B/C/D` methods live in `impl<MODE> $PXi<MODE>`, generic
over every mode, so the handle of mode `Peripheral(C)` reached from
Input(Floating) still offers all four peripheral-select methods. -/
theorem claim_C3_cex :
    (runPeripheralSelect Periph.C 0 s0).mode = Mode.peripheral Periph.C ∧
    methodAvailable (Mode.peripheral Periph.C) Method.intoPeripheralA = true ∧
    methodAvailable (Mode.peripheral Periph.C) Method.intoPeripheralB = true ∧
    methodAvailable (Mode.peripheral Periph.C) Method.intoPeripheralC = true ∧
    methodAvailable (Mode.peripheral Periph.C) Method.intoPeripheralD = true := by
  refine ⟨rfl, rfl, rfl, rfl, rfl⟩

/-- C3 (amended): the peripheral-select transitions (and `into_output`)
are available on a pin handle of every Mode Marker, not only from
Input(Floating): the impl block providing them is generic over `MODE`.
Only `downgrade`, `set_high` and `set_low` are restricted, to Output-mode
handles. In particular, after Input(Floating) → Peripheral(C) a further
peripheral reselect is accepted at compile time. -/
theorem claim_C3 (m : Mode) :
    methodAvailable m Method.intoPeripheralA = true ∧
    methodAvailable m Method.intoPeripheralB = true ∧
    methodAvailable m Method.intoPeripheralC = true ∧
    methodAvailable m Method.intoPeripheralD = true ∧
    methodAvailable m Method.intoOutput = true ∧
    methodAvailable m Method.downgrade = m.isOutput ∧
    methodAvailable m Method.setHigh = m.isOutput ∧
    methodAvailable m Method.setLow = m.isOutput :=
  ⟨rfl, rfl, rfl, rfl, rfl, rfl, rfl, rfl⟩

/-- C4 counterexample: the claim says `Parts` contains exactly five
register tokens; the `Parts` struct declares six (abcdsr1, abcdsr2, per,
pdr, oer, odr). -/
theorem claim_C4_cex : partsRegisterTokenFields.length ≠ 5 := by decide

/-- C4 (amended): for every port, `split()` consumes the port peripheral
and returns a `Parts` aggregate containing exactly six register tokens and
32 pin handles, each typed with the floating-input mode marker; it has no
failure path and performs no hardware register access (empty trace). -/
theorem claim_C4 :
    partsRegisterTokenFields.length = 6 ∧
    splitPIOA.pins.length = 32 ∧
    splitPIOB.pins.length = 32 ∧
    splitPIOC.pins.length = 32 ∧
    (splitPIOA.pins.all
      (fun e => decide (e.2 = Mode.input InputKind.floating))) = true ∧
    (splitPIOB.pins.all
      (fun e => decide (e.2 = Mode.input InputKind.floating))) = true ∧
    (splitPIOC.pins.all
      (fun e => decide (e.2 = Mode.input InputKind.floating))) = true ∧
    splitTrace = [] := by
  refine ⟨rfl, ?_, ?_, ?_, ?_, ?_, ?_, rfl⟩ <;> decide

/-- C5: for every pin index and port state, `set_high` on an Output-mode
handle (indexed or erased) performs exactly the single write `1 << i` to
SODR and `set_low` exactly the single write `1 << i` to CODR; the traces
contain no read and no other access, and the operations take no register
token (the embedded functions take none, as the source methods take only
`&mut self`). -/
theorem claim_C5 (i : Nat) (s : PioState) (p : PXx) :
    (PXi.set_high i s).2 = [Access.write Reg.SODR (1 <<< i)] ∧
    (PXi.set_low i s).2 = [Access.write Reg.CODR (1 <<< i)] ∧
    (PXx.set_high p s).2 = [Access.write Reg.SODR (1 <<< p.i)] ∧
    (PXx.set_low p s).2 = [Access.write Reg.CODR (1 <<< p.i)] ∧
    ((PXi.set_high i s).2.all (fun a => ! a.isRead)) = true ∧
    ((PXi.set_low i s).2.all (fun a => ! a.isRead)) = true ∧
    ((PXx.set_high p s).2.all (fun a => ! a.isRead)) = true ∧
    ((PXx.set_low p s).2.all (fun a => ! a.isRead)) = true :=
  ⟨rfl, rfl, rfl, rfl, rfl, rfl, rfl, rfl⟩

/-- C6: erasing the index of an Output-mode pin handle with compile-time
index `i` and sub-mode `sub` yields an erased handle with the same Output
sub-mode whose `set_high`/`set_low` behaviour (resulting state and
register-access trace) is identical to the indexed handle's: both write
the equal value `1 << i`. -/
theorem claim_C6 (i sub : Nat) (s : PioState) :
    (downgrade i sub).i = i ∧
    (downgrade i sub).mode = Mode.output sub ∧
    PXx.set_high (downgrade i sub) s = PXi.set_high i s ∧
    PXx.set_low (downgrade i sub) s = PXi.set_low i s :=
  ⟨rfl, rfl, rfl, rfl⟩

/-- C7: for every pin index `i < 32`, `into_output` performs exactly one
unconditional write of `1 << i` to OER (no read, no read-modify-write),
after which bit `i` of the output-enable status is set and every other
bit is unchanged, and the returned handle's mode marker is `Output<()>`. -/
theorem claim_C7 (i : Nat) (s : PioState) (hi : i < 32) :
    (into_output i s).trace = [Access.write Reg.OER (1 <<< i)] ∧
    (into_output i s).state.outputStatus.testBit i = true ∧
    (∀ j, j ≠ i →
      (into_output i s).state.outputStatus.testBit j
        = s.outputStatus.testBit j) ∧
    (into_output i s).mode = Mode.output 0 := by
  refine ⟨rfl, ?_, ?_, rfl⟩
  · rw [show (into_output i s).state.outputStatus
        = s.outputStatus ||| (1 <<< i) % 2 ^ 32 from rfl,
      Nat.testBit_lor, Nat.testBit_mod_two_pow, testBit_one_shiftLeft]
    simp [hi]
  · intro j hj
    rw [show (into_output i s).state.outputStatus
        = s.outputStatus ||| (1 <<< i) % 2 ^ 32 from rfl,
      Nat.testBit_lor, Nat.testBit_mod_two_pow, testBit_one_shiftLeft]
    simp [Ne.symm hj]

/-- Witness for C7: concrete evaluation at i = 5, reset state. -/
theorem claim_C7_witness :
    (into_output 5 s0).trace = [Access.write Reg.OER (1 <<< 5)] ∧
    (into_output 5 s0).state.outputStatus.testBit 5 = true :=
  ⟨(claim_C7 5 s0 (by decide)).1, (claim_C7 5 s0 (by decide)).2.1⟩

/-- C8: for every pin index and peripheral function X, `into_peripheralX`
touches PDR exactly once, with the single unconditional write `1 << i`
(in particular it never reads PDR, so there is no read-modify-write on it),
and the only reads it performs are of the two peripheral-select registers,
one each. -/
theorem claim_C8 (p : Periph) (i : Nat) (s : PioState) :
    (runPeripheralSelect p i s).trace.filter (Access.touches Reg.PDR)
        = [Access.write Reg.PDR (1 <<< i)] ∧
    (runPeripheralSelect p i s).trace.filter Access.isRead
        = [Access.read Reg.ABCDSR1, Access.read Reg.ABCDSR2] := by
  cases p <;> exact ⟨rfl, rfl⟩

/-- C9: no operation of the module writes the pin-enable (PER) or
output-disable (ODR) register — every access trace is free of them — and
every transition a pin handle offers targets a Peripheral or Output mode,
so after any step of the transition relation the Input state is never
(re-)entered. -/
theorem claim_C9 :
    (∀ (p : Periph) (i : Nat) (s : PioState),
      ((runPeripheralSelect p i s).trace.all
        (fun a => ! a.touches Reg.PER && ! a.touches Reg.ODR)) = true) ∧
    (∀ (i : Nat) (s : PioState),
      ((into_output i s).trace.all
        (fun a => ! a.touches Reg.PER && ! a.touches Reg.ODR)) = true) ∧
    (∀ (i : Nat) (s : PioState),
      ((PXi.set_high i s).2.all
        (fun a => ! a.touches Reg.PER && ! a.touches Reg.ODR)) = true ∧
      ((PXi.set_low i s).2.all
        (fun a => ! a.touches Reg.PER && ! a.touches Reg.ODR)) = true) ∧
    (∀ (p : PXx) (s : PioState),
      ((PXx.set_high p s).2.all
        (fun a => ! a.touches Reg.PER && ! a.touches Reg.ODR)) = true ∧
      ((PXx.set_low p s).2.all
        (fun a => ! a.touches Reg.PER && ! a.touches Reg.ODR)) = true) ∧
    (splitTrace.all
      (fun a => ! a.touches Reg.PER && ! a.touches Reg.ODR)) = true ∧
    (∀ m m' : Mode, Step m m' → m'.isInput = false) := by
  refine ⟨?_, ?_, ?_, ?_, rfl, ?_⟩
  · intro p i s
    cases p <;> rfl
  · intro i s
    rfl
  · intro i s
    exact ⟨rfl, rfl⟩
  · intro p s
    exact ⟨rfl, rfl⟩
  · intro m m' h
    cases h <;> rfl

/-- Witness for C9: a concrete step — `into_output` from Input(Floating) —
lands in a non-Input mode. -/
theorem claim_C9_witness :
    Mode.isInput (Mode.output 0) = false :=
  claim_C9.2.2.2.2.2 (Mode.input InputKind.floating) (Mode.output 0)
    (Step.intoOutput (Mode.input InputKind.floating))

/-- C10: every pin index instantiated by the three `pio!` invocations is
in 0..=31, so `1 << index` stays below `2 ^ 32` (the shift never reaches
the `u32` width), and `downgrade` stores exactly the compile-time index in
the erased handle's runtime field, which `set_high`/`set_low` then shift. -/
theorem claim_C10 :
    ((pioaPinEntries ++ piobPinEntries ++ piocPinEntries).all
      (fun e => decide (e.1 < 32) && decide (1 <<< e.1 < 2 ^ 32))) = true ∧
    (∀ i sub : Nat, (downgrade i sub).i = i) ∧
    (∀ i sub : Nat, (PXx.set_high (downgrade i sub) s0).2
        = [Access.write Reg.SODR (1 <<< i)]) :=
  ⟨by decide, fun _ _ => rfl, fun _ _ => rfl⟩

end Atsam4s
